import Mathlib

/-!
Shallow embedding of the data-extraction layer in src/src/extractors/base.py.

The module defines an `ExtractionResult` value (tabular data plus provenance
metadata), and three extractors: `DatabaseExtractor` (parameterized SQL with an
incremental timestamp-filtered rewrite), `APIExtractor` (cursor-driven
pagination loop over JSON responses), and `FileExtractor` (format dispatch over
four decoders).  External collaborators (the SQL engine, the HTTP transport,
the file decoders) are modelled as function parameters; the wall clock is
passed explicitly as a `Timestamp` argument.  Python dictionaries are modelled
as association lists with Python's in-place-update semantics (`setKey`), and
JSON values as the inductive `Json`.
-/

namespace Extractors

/-- A wall-clock timestamp; `iso` is the string `datetime.isoformat()` yields.
A Python `datetime` object is always truthy, so an `Option Timestamp` argument
is truthy exactly when it is `some`. -/
structure Timestamp where
  iso : String
deriving DecidableEq, Repr

/-- JSON values, as produced by parsing an HTTP response body. -/
inductive Json where
  | null : Json
  | str : String → Json
  | num : Int → Json
  | bool : Bool → Json
  | arr : List Json → Json
  | obj : List (String × Json) → Json
deriving BEq, Repr

/-- Tabular data: an ordered sequence of rows (`pd.DataFrame` over records). -/
abbrev Table := List Json

/-- First-match lookup in an association list (Python `dict` access: a dict
has unique keys, so first-match agrees with Python). -/
def listLookup {α : Type} (k : String) : List (String × α) → Option α
  | [] => Option.none
  | (k', v) :: rest => if k' = k then some v else listLookup k rest

/-- Python `d[k] = v` / `{**d, k: v}`: overwrite the value at `k` in place if
the key is present, otherwise append the new binding at the end. -/
def setKey {α : Type} (d : List (String × α)) (k : String) (v : α) :
    List (String × α) :=
  if d.any (fun kv => kv.1 = k) then
    d.map (fun kv => if kv.1 = k then (k, v) else kv)
  else
    d ++ [(k, v)]

theorem listLookup_map_overwrite {α : Type} (d : List (String × α))
    (k : String) (v : α) :
    listLookup k (d.map (fun kv => if kv.1 = k then (k, v) else kv))
      = (listLookup k d).map (fun _ => v) := by
  induction d with
  | nil => rfl
  | cons kv rest ih =>
    obtain ⟨a, w⟩ := kv
    rw [List.map_cons]
    dsimp only
    by_cases hk : a = k
    · subst hk
      rw [if_pos rfl]
      simp [listLookup, ih]
    · rw [if_neg hk]
      simp [listLookup, hk, ih]

theorem listLookup_map_overwrite_other {α : Type} (d : List (String × α))
    (k k' : String) (v : α) (h : k' ≠ k) :
    listLookup k' (d.map (fun kv => if kv.1 = k then (k, v) else kv))
      = listLookup k' d := by
  induction d with
  | nil => rfl
  | cons kv rest ih =>
    obtain ⟨a, w⟩ := kv
    rw [List.map_cons]
    dsimp only
    by_cases hk : a = k
    · subst hk
      rw [if_pos rfl]
      simp [listLookup, Ne.symm h, ih]
    · rw [if_neg hk]
      by_cases hk' : a = k'
      · subst hk'
        simp [listLookup]
      · simp [listLookup, hk', ih]

theorem listLookup_append {α : Type} (d tail : List (String × α))
    (k : String) :
    listLookup k (d ++ tail)
      = match listLookup k d with
        | some v => some v
        | Option.none => listLookup k tail := by
  induction d with
  | nil => rfl
  | cons kv rest ih =>
    obtain ⟨a, w⟩ := kv
    by_cases hk : a = k
    · subst hk
      simp [listLookup]
    · simp [listLookup, hk, ih]

theorem listLookup_none_of_any_false {α : Type} (d : List (String × α))
    (k : String) (h : d.any (fun kv => kv.1 = k) = false) :
    listLookup k d = Option.none := by
  induction d with
  | nil => rfl
  | cons kv rest ih =>
    simp only [List.any_cons, Bool.or_eq_false_iff, decide_eq_false_iff_not]
      at h
    simp [listLookup, h.1, ih h.2]

theorem listLookup_isSome_of_any_true {α : Type} (d : List (String × α))
    (k : String) (h : d.any (fun kv => kv.1 = k) = true) :
    (listLookup k d).isSome = true := by
  induction d with
  | nil => simp at h
  | cons kv rest ih =>
    by_cases hk : kv.1 = k
    · simp [listLookup, hk]
    · simp only [List.any_cons, Bool.or_eq_true_iff, decide_eq_true_eq] at h
      rcases h with h | h
      · exact absurd h hk
      · simp [listLookup, hk, ih h]

/-- After `setKey d k v`, looking up `k` yields `v`. -/
theorem listLookup_setKey_self {α : Type} (d : List (String × α)) (k : String)
    (v : α) : listLookup k (setKey d k v) = some v := by
  unfold setKey
  by_cases h : d.any (fun kv => kv.1 = k) = true
  · rw [if_pos h, listLookup_map_overwrite]
    rcases Option.isSome_iff_exists.mp (listLookup_isSome_of_any_true d k h)
      with ⟨w, hw⟩
    simp [hw]
  · rw [if_neg h, listLookup_append,
      listLookup_none_of_any_false d k (Bool.eq_false_iff.mpr h)]
    simp [listLookup]

/-- `setKey d k v` leaves every other key's binding unchanged. -/
theorem listLookup_setKey_other {α : Type} (d : List (String × α))
    (k k' : String) (v : α) (h : k' ≠ k) :
    listLookup k' (setKey d k v) = listLookup k' d := by
  unfold setKey
  by_cases hany : d.any (fun kv => kv.1 = k) = true
  · rw [if_pos hany, listLookup_map_overwrite_other d k k' v h]
  · rw [if_neg hany, listLookup_append]
    cases hd : listLookup k' d with
    | some w => rfl
    | none => simp [listLookup, Ne.symm h]

/-- Values bound in a database query's parameter dictionary
(`params: Dict[str, Any]`; an incremental call additionally binds a
`datetime`). -/
inductive DbVal where
  | str : String → DbVal
  | int : Int → DbVal
  | dt : Timestamp → DbVal
deriving DecidableEq, Repr

/-- Database query parameters (`params` dict). -/
abbrev DbParams := List (String × DbVal)

/-- Values stored in an `ExtractionResult.metadata` dictionary: the query
text / url / format / path / serialized timestamp (strings), the
`incremental` flag (bool), Python `None`, or an echoed parameter dict. -/
inductive MetaVal where
  | s : String → MetaVal
  | b : Bool → MetaVal
  | none : MetaVal
  | dbParams : DbParams → MetaVal
deriving DecidableEq, Repr

/-- `ExtractionResult` (base.py lines 13-24): tabular data plus provenance. -/
structure ExtractionResult where
  data : Table
  source : String
  extracted_at : Timestamp
  metadata : List (String × MetaVal)
  record_count : Nat

/-- The dataclass constructor followed by `__post_init__`: whatever
`record_count` argument is supplied (the dataclass default is `0`),
`__post_init__` overwrites the field with `len(self.data)`. -/
def ExtractionResult.make (data : Table) (source : String)
    (extracted_at : Timestamp) (metadata : List (String × MetaVal))
    (record_count : Nat) : ExtractionResult :=
  ⟨data, source, extracted_at, metadata, data.length⟩

/-- `DatabaseExtractor` configuration (base.py lines 88-110), after
`__init__` has defaulted `params` to the empty dict. -/
structure DatabaseExtractor where
  name : String
  connection_string : String
  query : String
  params : DbParams

/-- The SQL collaborator `pd.read_sql(query, connection_string, params)`:
a black box from the query text, the connection string and the bound
parameters to a table of rows. -/
abbrev SqlEngine := String → String → DbParams → Table

/-- `DatabaseExtractor.extract` (base.py lines 112-129): run the base query
verbatim with the configured parameters and wrap the result. -/
def DatabaseExtractor.extract (engine : SqlEngine) (now : Timestamp)
    (e : DatabaseExtractor) : ExtractionResult :=
  ExtractionResult.make
    (engine e.query e.connection_string e.params)
    ("database:" ++ e.name) now
    [("query", MetaVal.s e.query), ("params", MetaVal.dbParams e.params)] 0

/-- The query/params pair `DatabaseExtractor.extract_incremental` builds
(base.py lines 137-145).  `if since:` — a `datetime` is always truthy, so
the first branch is taken exactly when `since` is `some`.  The triple-quoted
f-string interpolating the base query and the timestamp column is embedded
with its exact whitespace. -/
def DatabaseExtractor.incrementalRequest (e : DatabaseExtractor)
    (since : Option Timestamp) (timestamp_column : String) :
    String × DbParams :=
  match since with
  | some t =>
      ("\n                SELECT * FROM (" ++ e.query ++ ") AS base\n                WHERE "
         ++ timestamp_column ++ " > :since\n            ",
       setKey e.params "since" (DbVal.dt t))
  | Option.none => (e.query, e.params)

/-- `DatabaseExtractor.extract_incremental` (base.py lines 131-156): run the
(possibly rewritten) query and wrap the result; the metadata always carries
`"incremental": True` and `"since": since.isoformat() if since else None`. -/
def DatabaseExtractor.extract_incremental (engine : SqlEngine)
    (now : Timestamp) (e : DatabaseExtractor) (since : Option Timestamp)
    (timestamp_column : String) : ExtractionResult :=
  let req := e.incrementalRequest since timestamp_column
  ExtractionResult.make
    (engine req.1 e.connection_string req.2)
    ("database:" ++ e.name) now
    [("incremental", MetaVal.b true),
     ("since",
       match since with
       | some t => MetaVal.s t.iso
       | Option.none => MetaVal.none)] 0

/-- Python truthiness of a JSON value (`if data.get(self.pagination_key):`):
`None`, `False`, `0`, the empty string, the empty list and the empty dict are
falsy; everything else is truthy. -/
def jsonTruthy : Json → Bool
  | Json.null => false
  | Json.str s => s ≠ ""
  | Json.num n => n ≠ 0
  | Json.bool b => b
  | Json.arr xs => !xs.isEmpty
  | Json.obj kvs => !kvs.isEmpty

/-- `dict.get(k, default)` on a JSON object: the stored value if the key is
present (even if that value is `None`), otherwise the default. -/
def objGetD (kvs : List (String × Json)) (k : String) (d : Json) : Json :=
  match listLookup k kvs with
  | some v => v
  | Option.none => d

/-- Python iteration as used by `list.extend(items)`: a list yields its
elements, a string its one-character strings, a dict its keys; `None`,
numbers and booleans are not iterable (a `TypeError`). -/
def pyIter : Json → Option (List Json)
  | Json.arr xs => some xs
  | Json.str s => some (s.toList.map (fun c => Json.str (String.singleton c)))
  | Json.obj kvs => some (kvs.map (fun kv => Json.str kv.1))
  | _ => Option.none

/-- One HTTP exchange: the status code and the parsed JSON body the mocked
transport returns for the next GET. -/
structure Response where
  status : Nat
  body : Json

/-- One GET request as issued by the pagination loop: the resolved URL, the
configured headers, and the query parameters sent with this request. -/
structure ApiRequest where
  url : String
  headers : List (String × String)
  params : List (String × Json)

/-- How one `extract()` call can fail: the transport has no further response
(the mock ran out while the loop wanted another page), a non-success HTTP
status (`response.raise_for_status()`), or `all_data.extend(items)` applied
to a non-iterable value (`TypeError`). -/
inductive ApiError where
  | noResponse : ApiError
  | httpStatus : Nat → ApiError
  | typeError : ApiError
deriving DecidableEq, Repr

/-- `APIExtractor` configuration (base.py lines 159-187), after `__init__`
has stripped slashes and defaulted `headers` / `params` to empty dicts. -/
structure APIExtractor where
  name : String
  base_url : String
  endpoint : String
  headers : List (String × String)
  params : List (String × Json)
  pagination_key : Option String

/-- The `while True` pagination loop of `APIExtractor.extract` (base.py
lines 198-221), driven by the remaining mocked responses; returns the
accumulated records (or the error that aborted the loop) together with the
trace of GET requests issued.  Each iteration consumes one response; an
exhausted response list models a transport failure. -/
def apiLoop (cfg : APIExtractor) (url : String) :
    List Response → List (String × Json) → List Json →
    Except ApiError (List Json) × List ApiRequest
  | [], _, _ => (Except.error ApiError.noResponse, [])
  | r :: rest, params, all_data =>
    let req : ApiRequest := ⟨url, cfg.headers, params⟩
    let step : Except ApiError (List Json) × List ApiRequest :=
      if 400 ≤ r.status then (Except.error (ApiError.httpStatus r.status), [])
      else
        match r.body with
        | Json.arr xs => (Except.ok (all_data ++ xs), [])
        | Json.obj kvs =>
          match pyIter (objGetD kvs "data"
              (objGetD kvs "items" (objGetD kvs "results" (Json.arr [])))) with
          | Option.none => (Except.error ApiError.typeError, [])
          | some items =>
            match cfg.pagination_key with
            | some pk =>
              if (pk != "") && jsonTruthy (objGetD kvs pk Json.null) then
                apiLoop cfg url rest
                  (setKey params "cursor" (objGetD kvs pk Json.null))
                  (all_data ++ items)
              else (Except.ok (all_data ++ items), [])
            | Option.none => (Except.ok (all_data ++ items), [])
        | _ =>
          -- body neither list nor dict: neither isinstance branch runs and
          -- the while loop simply issues the same request again
          apiLoop cfg url rest params all_data
    (step.1, req :: step.2)

/-- `APIExtractor.extract` (base.py lines 189-229): resolve the URL, run the
pagination loop on a copy of the configured params, and wrap the flattened
records; also exposes the trace of requests issued. -/
def APIExtractor.extract (e : APIExtractor) (now : Timestamp)
    (responses : List Response) :
    Except ApiError ExtractionResult × List ApiRequest :=
  let url := e.base_url ++ "/" ++ e.endpoint
  let run := apiLoop e url responses e.params []
  (match run.1 with
   | Except.ok all_data =>
     Except.ok (ExtractionResult.make all_data ("api:" ++ e.name) now
       [("url", MetaVal.s url)] 0)
   | Except.error err => Except.error err,
   run.2)

/-- The same call with the post-call object made explicit: the method body
assigns no attribute of `self` (its only use of `self.params` is the initial
`self.params.copy()`), so the extractor after the call is the extractor
before it. -/
def APIExtractor.extractSt (e : APIExtractor) (now : Timestamp)
    (responses : List Response) :
    APIExtractor × (Except ApiError ExtractionResult × List ApiRequest) :=
  (e, e.extract now responses)

/-- Python `s.rsplit(".", 1)[-1]` on a character list: the characters after
the last dot, or the whole string when it has no dot. -/
def pyRsplitLast (l : List Char) : List Char :=
  ((l.reverse.takeWhile (fun c => c != '.')).reverse)

/-- Python `s.lower()` (the paths at issue are ASCII, where Python's case
folding agrees with `Char.toLower`). -/
def pyLower (l : List Char) : List Char :=
  l.map Char.toLower

/-- `FileExtractor._detect_format` (base.py lines 258-263):
`ext = path.rsplit(".", 1)[-1].lower()`, mapped to `"excel"` when it is
`"xlsx"` or `"xls"`, returned unchanged otherwise. -/
def FileExtractor.detect_format (path : String) : String :=
  let ext := pyLower (pyRsplitLast path.toList)
  if ext ∈ [String.toList "xlsx", String.toList "xls"] then "excel"
  else String.mk ext

/-- Format-specific pandas read options (opaque to the dispatch logic). -/
abbrev ReadOptions := List (String × Json)

/-- A file-format decoder collaborator (`pd.read_csv` and friends): path and
read options in, table out. -/
abbrev FileReader := String → ReadOptions → Table

/-- A decoder stub for witnesses: decodes every file to the empty table. -/
def emptyReader : FileReader := fun _ _ => []

/-- A decoder stub for witnesses: decodes every file to one null row. -/
def nullRowReader : FileReader := fun _ _ => [Json.null]

/-- `FileExtractor` configuration (base.py lines 232-256) after `__init__`. -/
structure FileExtractor where
  name : String
  file_path : String
  file_format : String
  read_options : ReadOptions

/-- `FileExtractor.__init__`: `self.file_format = file_format or
self._detect_format(file_path)` — Python `or` takes the explicit format
only when it is truthy (a non-empty string). -/
def mkFileExtractor (name file_path : String) (file_format : Option String)
    (read_options : ReadOptions) : FileExtractor :=
  ⟨name, file_path,
   match file_format with
   | some f => if f = "" then FileExtractor.detect_format file_path else f
   | Option.none => FileExtractor.detect_format file_path,
   read_options⟩

/-- `FileExtractor.SUPPORTED_FORMATS` (base.py line 235). -/
def FileExtractor.SUPPORTED_FORMATS : List String :=
  ["csv", "json", "parquet", "excel"]

/-- The `ValueError` raised on an unsupported format. -/
inductive FileError where
  | unsupportedFormat : String → FileError
deriving DecidableEq, Repr

/-- `FileExtractor.extract` (base.py lines 265-278): dispatch on the resolved
format to exactly one of the four decoder collaborators, or raise the
unsupported-format error without touching any decoder. -/
def FileExtractor.extract (csvR jsonR parquetR excelR : FileReader)
    (now : Timestamp) (e : FileExtractor) :
    Except FileError ExtractionResult :=
  if e.file_format = "csv" then
    Except.ok (ExtractionResult.make (csvR e.file_path e.read_options)
      ("file:" ++ e.file_path) now
      [("format", MetaVal.s e.file_format), ("path", MetaVal.s e.file_path)] 0)
  else if e.file_format = "json" then
    Except.ok (ExtractionResult.make (jsonR e.file_path e.read_options)
      ("file:" ++ e.file_path) now
      [("format", MetaVal.s e.file_format), ("path", MetaVal.s e.file_path)] 0)
  else if e.file_format = "parquet" then
    Except.ok (ExtractionResult.make (parquetR e.file_path e.read_options)
      ("file:" ++ e.file_path) now
      [("format", MetaVal.s e.file_format), ("path", MetaVal.s e.file_path)] 0)
  else if e.file_format = "excel" then
    Except.ok (ExtractionResult.make (excelR e.file_path e.read_options)
      ("file:" ++ e.file_path) now
      [("format", MetaVal.s e.file_format), ("path", MetaVal.s e.file_path)] 0)
  else
    Except.error (FileError.unsupportedFormat e.file_format)

/-- `BaseExtractor.extract_incremental` (base.py lines 59-73): the default
implementation ignores `since` and calls the subtype's full `extract`. -/
def baseExtractIncremental {α : Type} (extractFull : Unit → α)
    (since : Option Timestamp) : α :=
  extractFull ()

/-- `FileExtractor` does not override `extract_incremental`; the inherited
base-class default runs. -/
def FileExtractor.extract_incremental (csvR jsonR parquetR excelR : FileReader)
    (now : Timestamp) (e : FileExtractor) (since : Option Timestamp) :
    Except FileError ExtractionResult :=
  baseExtractIncremental
    (fun _ => FileExtractor.extract csvR jsonR parquetR excelR now e) since

/-- `APIExtractor` does not override `extract_incremental`; the inherited
base-class default runs. -/
def APIExtractor.extract_incremental (e : APIExtractor) (now : Timestamp)
    (responses : List Response) (since : Option Timestamp) :
    Except ApiError ExtractionResult × List ApiRequest :=
  baseExtractIncremental (fun _ => e.extract now responses) since

/-! ## Claim theorems -/

/-- Claim C8: for every constructed `ExtractionResult`, whatever
`record_count` value is supplied at construction, the stored `record_count`
equals the number of rows in `data` (the `__post_init__` overwrite). -/
theorem extractionResult_record_count_invariant :
    ∀ (data : Table) (source : String) (t : Timestamp)
      (m : List (String × MetaVal)) (rc : Nat),
      (ExtractionResult.make data source t m rc).record_count
        = (ExtractionResult.make data source t m rc).data.length :=
  fun _ _ _ _ _ => rfl

/-- Claim C1, counterexample: with `since = None` the incremental call's
metadata still carries `"incremental": True` — it marks the call as
incremental, not as non-incremental. -/
theorem dbIncremental_none_metadata_counterexample :
    listLookup "incremental"
      ((DatabaseExtractor.extract_incremental (fun _ _ _ => [])
        ⟨"2024-01-01T00:00:00"⟩
        ⟨"orders", "postgres://db", "SELECT * FROM orders", []⟩
        Option.none "updated_at").metadata)
      = some (MetaVal.b true)
    ∧ MetaVal.b true ≠ MetaVal.b false := ⟨rfl, by decide⟩

/-- Claim C1, amended: with `since = None`, `extract_incremental` invokes the
query engine with the unmodified base query and the original parameters, so
its data equals the data of `extract()`; but its metadata records
`"incremental": True` together with `"since": None` (only the `since` entry
distinguishes the call from a genuinely incremental one). -/
theorem dbIncremental_none_behaves_like_extract :
    ∀ (engine : SqlEngine) (now : Timestamp) (e : DatabaseExtractor)
      (timestamp_column : String),
      (DatabaseExtractor.extract_incremental engine now e Option.none
          timestamp_column).data
        = (DatabaseExtractor.extract engine now e).data
      ∧ e.incrementalRequest Option.none timestamp_column
          = (e.query, e.params)
      ∧ (DatabaseExtractor.extract_incremental engine now e Option.none
          timestamp_column).metadata
          = [("incremental", MetaVal.b true), ("since", MetaVal.none)] :=
  fun _ _ _ _ => ⟨rfl, rfl, rfl⟩

/-- Claim C2: for every timestamp `T`, `extract_incremental(since=T,
timestamp_column=C)` invokes the engine with the base query rewritten as the
filtering subquery `SELECT * FROM (base query) AS base WHERE C > :since`
(embedded with the f-string's exact whitespace) and with the original
parameters extended by the binding `since = T`: looking up `since` yields
`T` and every other key's binding is unchanged. -/
theorem dbIncremental_some_rewrites_query :
    ∀ (engine : SqlEngine) (now : Timestamp) (e : DatabaseExtractor)
      (T : Timestamp) (timestamp_column : String),
      e.incrementalRequest (some T) timestamp_column
        = ("\n                SELECT * FROM (" ++ e.query
             ++ ") AS base\n                WHERE " ++ timestamp_column
             ++ " > :since\n            ",
           setKey e.params "since" (DbVal.dt T))
      ∧ (DatabaseExtractor.extract_incremental engine now e (some T)
          timestamp_column).data
          = engine ("\n                SELECT * FROM (" ++ e.query
              ++ ") AS base\n                WHERE " ++ timestamp_column
              ++ " > :since\n            ")
              e.connection_string (setKey e.params "since" (DbVal.dt T))
      ∧ listLookup "since" (setKey e.params "since" (DbVal.dt T))
          = some (DbVal.dt T)
      ∧ (∀ k, k ≠ "since" →
          listLookup k (setKey e.params "since" (DbVal.dt T))
            = listLookup k e.params) :=
  fun _ _ e T _ =>
    ⟨rfl, rfl, listLookup_setKey_self e.params "since" (DbVal.dt T),
     fun k hk => listLookup_setKey_other e.params "since" k (DbVal.dt T) hk⟩

/-- Witness for C2 at a concrete extractor: the binding of a key other than
`since` survives the extension unchanged. -/
theorem dbIncremental_some_rewrites_query_witness :
    listLookup "lim"
      (setKey [("lim", DbVal.int 10)] "since"
        (DbVal.dt ⟨"2024-05-01T00:00:00"⟩))
      = some (DbVal.int 10) :=
  ((dbIncremental_some_rewrites_query (fun _ _ _ => []) ⟨"t"⟩
      ⟨"orders", "postgres://db", "SELECT 1", [("lim", DbVal.int 10)]⟩
      ⟨"2024-05-01T00:00:00"⟩ "updated_at").2.2.2 "lim"
    (by decide)).trans rfl

/-- Claim C4: the subtypes that do not override `extract_incremental`
(`FileExtractor` and `APIExtractor`) inherit the base-class default, so for
every `since` — absent or concrete — `extract_incremental(since)` returns
exactly the result of `extract()` on the same configuration and the same
collaborator responses. -/
theorem extract_incremental_default_is_full_extract :
    ∀ (since : Option Timestamp) (csvR jsonR parquetR excelR : FileReader)
      (now : Timestamp) (fe : FileExtractor) (ae : APIExtractor)
      (responses : List Response),
      FileExtractor.extract_incremental csvR jsonR parquetR excelR now fe since
        = FileExtractor.extract csvR jsonR parquetR excelR now fe
      ∧ APIExtractor.extract_incremental ae now responses since
        = ae.extract now responses :=
  fun _ _ _ _ _ _ _ _ _ => ⟨rfl, rfl⟩

/-- Claim C3: with pagination key `"next"`, a first response mapping with
records `r1, r2` and cursor `"abc"` followed by a second mapping with record
`r3` and a null cursor yields exactly two GET requests — the second carrying
the query parameter `cursor = "abc"` — and a result whose data is exactly
`[r1, r2, r3]` in order. -/
theorem apiExtract_pagination_two_pages :
    ∀ (name base_url endpoint : String) (headers : List (String × String))
      (params : List (String × Json)) (now : Timestamp) (r1 r2 r3 : Json),
      APIExtractor.extract
          ⟨name, base_url, endpoint, headers, params, some "next"⟩ now
          [⟨200, Json.obj [("data", Json.arr [r1, r2]),
             ("next", Json.str "abc")]⟩,
           ⟨200, Json.obj [("data", Json.arr [r3]), ("next", Json.null)]⟩]
        = (Except.ok (ExtractionResult.make [r1, r2, r3] ("api:" ++ name) now
             [("url", MetaVal.s (base_url ++ "/" ++ endpoint))] 0),
           [⟨base_url ++ "/" ++ endpoint, headers, params⟩,
            ⟨base_url ++ "/" ++ endpoint, headers,
             setKey params "cursor" (Json.str "abc")⟩])
      ∧ listLookup "cursor" (setKey params "cursor" (Json.str "abc"))
          = some (Json.str "abc") :=
  fun _ _ _ _ params _ _ _ _ =>
    ⟨rfl, listLookup_setKey_self params "cursor" (Json.str "abc")⟩

/-- Claim C7: a response whose body is a top-level JSON sequence is appended
to the accumulator as the full page and terminates the loop at once —
stated for the loop at any accumulator, and for `extract()` on a single
bare-list response, which yields exactly those records with exactly one
request issued, whatever the pagination key and whatever further responses
the transport could have served. -/
theorem apiExtract_bare_list_terminal :
    (∀ (cfg : APIExtractor) (url : String) (xs : List Json)
       (rest : List Response) (params : List (String × Json))
       (all_data : List Json),
       apiLoop cfg url (⟨200, Json.arr xs⟩ :: rest) params all_data
         = (Except.ok (all_data ++ xs), [⟨url, cfg.headers, params⟩]))
    ∧ (∀ (name base_url endpoint : String)
         (headers : List (String × String))
         (params : List (String × Json)) (pk : Option String)
         (now : Timestamp) (r1 r2 : Json) (rest : List Response),
         APIExtractor.extract ⟨name, base_url, endpoint, headers, params, pk⟩
             now (⟨200, Json.arr [r1, r2]⟩ :: rest)
           = (Except.ok (ExtractionResult.make [r1, r2] ("api:" ++ name) now
                [("url", MetaVal.s (base_url ++ "/" ++ endpoint))] 0),
              [⟨base_url ++ "/" ++ endpoint, headers, params⟩])) :=
  ⟨fun _ _ _ _ _ _ => rfl, fun _ _ _ _ _ _ _ _ _ _ => rfl⟩

/-- Claim C9: one `extract()` call leaves the extractor's fields unchanged —
the cursor is written only to the per-call copy of the params — so a
subsequent `extract()` on the post-call extractor issues its first request
with the original construction-time headers and params. -/
theorem apiExtract_leaves_config_unchanged :
    ∀ (e : APIExtractor) (now now' : Timestamp) (responses : List Response)
      (r : Response) (rest : List Response),
      (e.extractSt now responses).1 = e
      ∧ ((e.extractSt now responses).1.extract now' (r :: rest)).2.head?
          = some ⟨e.base_url ++ "/" ++ e.endpoint, e.headers, e.params⟩ :=
  fun _ _ _ _ _ _ => ⟨rfl, rfl⟩

theorem takeWhile_append_of_all {α : Type} (p : α → Bool) (l₁ l₂ : List α)
    (h : ∀ a ∈ l₁, p a = true) :
    (l₁ ++ l₂).takeWhile p = l₁ ++ l₂.takeWhile p := by
  induction l₁ with
  | nil => simp
  | cons a l ih =>
    have hpa : p a = true := h a (List.mem_cons_self a l)
    simp only [List.cons_append, List.takeWhile_cons, hpa, if_true]
    rw [ih (fun x hx => h x (List.mem_cons_of_mem a hx))]

/-- `rsplit(".", 1)[-1]` on a string that ends in a dot-free suffix `s`
preceded by a dot returns exactly `s`. -/
theorem pyRsplitLast_append_dot {s : List Char} (q : List Char)
    (hs : ∀ c ∈ s, c ≠ '.') : pyRsplitLast (q ++ '.' :: s) = s := by
  unfold pyRsplitLast
  rw [List.reverse_append, List.reverse_cons, List.append_assoc,
    takeWhile_append_of_all _ s.reverse _ (fun c hc => by
      have hcs : c ∈ s := List.mem_reverse.mp hc
      simpa using hs c hcs)]
  simp [List.takeWhile]

/-- `rsplit(".", 1)[-1]` on a dot-free string returns the whole string. -/
theorem pyRsplitLast_of_no_dot {l : List Char} (h : '.' ∉ l) :
    pyRsplitLast l = l := by
  unfold pyRsplitLast
  rw [List.takeWhile_eq_self_iff.mpr (fun c hc => by
    have hcl : c ∈ l := List.mem_reverse.mp hc
    have hne : c ≠ '.' := fun he => h (he ▸ hcl)
    simpa using hne)]
  simp

/-- Claim C5: for a `FileExtractor` constructed without an explicit format,
resolution from the path is case-insensitive on the extension: a path ending
in `.xlsx` or `.xls` in any letter case resolves to `"excel"`, and any other
extension (the characters after the last dot) resolves to that extension
lowercased, passed through unchanged. -/
theorem fileFormat_detection :
    (∀ (name p : String) (opts : ReadOptions),
      ((∃ q a b c d, p.toList = q ++ ['.', a, b, c, d]
          ∧ Char.toLower a = 'x' ∧ Char.toLower b = 'l'
          ∧ Char.toLower c = 's' ∧ Char.toLower d = 'x')
       ∨ (∃ q a b c, p.toList = q ++ ['.', a, b, c]
          ∧ Char.toLower a = 'x' ∧ Char.toLower b = 'l'
          ∧ Char.toLower c = 's'))
      → (mkFileExtractor name p Option.none opts).file_format = "excel")
    ∧ (∀ (name p : String) (opts : ReadOptions),
        pyLower (pyRsplitLast p.toList) ≠ String.toList "xlsx" →
        pyLower (pyRsplitLast p.toList) ≠ String.toList "xls" →
        (mkFileExtractor name p Option.none opts).file_format
          = String.mk (pyLower (pyRsplitLast p.toList))) := by
  constructor
  · intro name p opts h
    show FileExtractor.detect_format p = "excel"
    unfold FileExtractor.detect_format
    rcases h with ⟨q, a, b, c, d, hp, ha, hb, hc, hd⟩
      | ⟨q, a, b, c, hp, ha, hb, hc⟩
    · have hne : ∀ ch ∈ [a, b, c, d], ch ≠ '.' := by
        intro ch hch
        simp only [List.mem_cons, List.not_mem_nil, or_false] at hch
        rcases hch with rfl | rfl | rfl | rfl
        · intro he; rw [he] at ha; exact absurd ha (by decide)
        · intro he; rw [he] at hb; exact absurd hb (by decide)
        · intro he; rw [he] at hc; exact absurd hc (by decide)
        · intro he; rw [he] at hd; exact absurd hd (by decide)
      rw [hp, pyRsplitLast_append_dot q hne]
      have hlow : pyLower [a, b, c, d] = String.toList "xlsx" := by
        simp only [pyLower, List.map_cons, List.map_nil, ha, hb, hc, hd]
        rfl
      rw [hlow]
      exact if_pos (by decide)
    · have hne : ∀ ch ∈ [a, b, c], ch ≠ '.' := by
        intro ch hch
        simp only [List.mem_cons, List.not_mem_nil, or_false] at hch
        rcases hch with rfl | rfl | rfl
        · intro he; rw [he] at ha; exact absurd ha (by decide)
        · intro he; rw [he] at hb; exact absurd hb (by decide)
        · intro he; rw [he] at hc; exact absurd hc (by decide)
      rw [hp, pyRsplitLast_append_dot q hne]
      have hlow : pyLower [a, b, c] = String.toList "xls" := by
        simp only [pyLower, List.map_cons, List.map_nil, ha, hb, hc]
        rfl
      rw [hlow]
      exact if_pos (by decide)
  · intro name p opts h1 h2
    show FileExtractor.detect_format p
      = String.mk (pyLower (pyRsplitLast p.toList))
    unfold FileExtractor.detect_format
    exact if_neg (fun hmem => by
      rcases List.mem_cons.mp hmem with hx | hx
      · exact h1 hx
      · exact h2 (List.mem_singleton.mp hx))

/-- Witness for C5: a concrete upper-case Excel path resolves to `"excel"`,
and a concrete `.tsv` path passes its extension through unchanged. -/
theorem fileFormat_detection_witness :
    (mkFileExtractor "f" "report.XLSX" Option.none []).file_format = "excel"
    ∧ (mkFileExtractor "f" "data.tsv" Option.none []).file_format = "tsv" :=
  ⟨fileFormat_detection.1 "f" "report.XLSX" []
     (Or.inl ⟨String.toList "report", 'X', 'L', 'S', 'X',
       by decide, by decide, by decide, by decide, by decide⟩),
   (fileFormat_detection.2 "f" "data.tsv" [] (by decide) (by decide)).trans
     (by decide)⟩

theorem fileExtract_unsupported (csvR jsonR parquetR excelR : FileReader)
    (now : Timestamp) (e : FileExtractor)
    (h : e.file_format ∉ FileExtractor.SUPPORTED_FORMATS) :
    FileExtractor.extract csvR jsonR parquetR excelR now e
      = Except.error (FileError.unsupportedFormat e.file_format) := by
  have h1 : e.file_format ≠ "csv" := fun he => h (by rw [he]; decide)
  have h2 : e.file_format ≠ "json" := fun he => h (by rw [he]; decide)
  have h3 : e.file_format ≠ "parquet" := fun he => h (by rw [he]; decide)
  have h4 : e.file_format ≠ "excel" := fun he => h (by rw [he]; decide)
  unfold FileExtractor.extract
  rw [if_neg h1, if_neg h2, if_neg h3, if_neg h4]

theorem fileExtract_csv (csvR jsonR parquetR excelR : FileReader)
    (now : Timestamp) (e : FileExtractor) (h : e.file_format = "csv") :
    FileExtractor.extract csvR jsonR parquetR excelR now e
      = Except.ok (ExtractionResult.make (csvR e.file_path e.read_options)
          ("file:" ++ e.file_path) now
          [("format", MetaVal.s e.file_format),
           ("path", MetaVal.s e.file_path)] 0) := by
  unfold FileExtractor.extract
  rw [h, if_pos rfl]

theorem fileExtract_json (csvR jsonR parquetR excelR : FileReader)
    (now : Timestamp) (e : FileExtractor) (h : e.file_format = "json") :
    FileExtractor.extract csvR jsonR parquetR excelR now e
      = Except.ok (ExtractionResult.make (jsonR e.file_path e.read_options)
          ("file:" ++ e.file_path) now
          [("format", MetaVal.s e.file_format),
           ("path", MetaVal.s e.file_path)] 0) := by
  unfold FileExtractor.extract
  rw [h, if_neg (by decide), if_pos rfl]

theorem fileExtract_parquet (csvR jsonR parquetR excelR : FileReader)
    (now : Timestamp) (e : FileExtractor) (h : e.file_format = "parquet") :
    FileExtractor.extract csvR jsonR parquetR excelR now e
      = Except.ok (ExtractionResult.make (parquetR e.file_path e.read_options)
          ("file:" ++ e.file_path) now
          [("format", MetaVal.s e.file_format),
           ("path", MetaVal.s e.file_path)] 0) := by
  unfold FileExtractor.extract
  rw [h, if_neg (by decide), if_neg (by decide), if_pos rfl]

theorem fileExtract_excel (csvR jsonR parquetR excelR : FileReader)
    (now : Timestamp) (e : FileExtractor) (h : e.file_format = "excel") :
    FileExtractor.extract csvR jsonR parquetR excelR now e
      = Except.ok (ExtractionResult.make (excelR e.file_path e.read_options)
          ("file:" ++ e.file_path) now
          [("format", MetaVal.s e.file_format),
           ("path", MetaVal.s e.file_path)] 0) := by
  unfold FileExtractor.extract
  rw [h, if_neg (by decide), if_neg (by decide), if_neg (by decide),
    if_pos rfl]

/-- Claim C6: with a resolved format outside the supported set, `extract()`
fails with the unsupported-format error — the result is a fixed error term
that does not consult any of the four decoders — and with a format in the
set it dispatches to exactly the one matching decoder: the result is
determined by that decoder's output alone and is unchanged when the other
three decoders are replaced. -/
theorem fileExtract_dispatch :
    (∀ (csvR jsonR parquetR excelR : FileReader) (now : Timestamp)
       (e : FileExtractor),
       e.file_format ∉ FileExtractor.SUPPORTED_FORMATS →
       FileExtractor.extract csvR jsonR parquetR excelR now e
         = Except.error (FileError.unsupportedFormat e.file_format))
    ∧ (∀ (csvR jsonR parquetR excelR jsonR' parquetR' excelR' : FileReader)
         (now : Timestamp) (e : FileExtractor),
         e.file_format = "csv" →
         FileExtractor.extract csvR jsonR parquetR excelR now e
           = Except.ok (ExtractionResult.make
               (csvR e.file_path e.read_options) ("file:" ++ e.file_path) now
               [("format", MetaVal.s e.file_format),
                ("path", MetaVal.s e.file_path)] 0)
         ∧ FileExtractor.extract csvR jsonR parquetR excelR now e
           = FileExtractor.extract csvR jsonR' parquetR' excelR' now e)
    ∧ (∀ (csvR jsonR parquetR excelR csvR' parquetR' excelR' : FileReader)
         (now : Timestamp) (e : FileExtractor),
         e.file_format = "json" →
         FileExtractor.extract csvR jsonR parquetR excelR now e
           = Except.ok (ExtractionResult.make
               (jsonR e.file_path e.read_options) ("file:" ++ e.file_path) now
               [("format", MetaVal.s e.file_format),
                ("path", MetaVal.s e.file_path)] 0)
         ∧ FileExtractor.extract csvR jsonR parquetR excelR now e
           = FileExtractor.extract csvR' jsonR parquetR' excelR' now e)
    ∧ (∀ (csvR jsonR parquetR excelR csvR' jsonR' excelR' : FileReader)
         (now : Timestamp) (e : FileExtractor),
         e.file_format = "parquet" →
         FileExtractor.extract csvR jsonR parquetR excelR now e
           = Except.ok (ExtractionResult.make
               (parquetR e.file_path e.read_options)
               ("file:" ++ e.file_path) now
               [("format", MetaVal.s e.file_format),
                ("path", MetaVal.s e.file_path)] 0)
         ∧ FileExtractor.extract csvR jsonR parquetR excelR now e
           = FileExtractor.extract csvR' jsonR' parquetR excelR' now e)
    ∧ (∀ (csvR jsonR parquetR excelR csvR' jsonR' parquetR' : FileReader)
         (now : Timestamp) (e : FileExtractor),
         e.file_format = "excel" →
         FileExtractor.extract csvR jsonR parquetR excelR now e
           = Except.ok (ExtractionResult.make
               (excelR e.file_path e.read_options)
               ("file:" ++ e.file_path) now
               [("format", MetaVal.s e.file_format),
                ("path", MetaVal.s e.file_path)] 0)
         ∧ FileExtractor.extract csvR jsonR parquetR excelR now e
           = FileExtractor.extract csvR' jsonR' parquetR' excelR now e) :=
  ⟨fun csvR jsonR parquetR excelR now e h =>
     fileExtract_unsupported csvR jsonR parquetR excelR now e h,
   fun csvR jsonR parquetR excelR jsonR' parquetR' excelR' now e h =>
     ⟨fileExtract_csv csvR jsonR parquetR excelR now e h,
      (fileExtract_csv csvR jsonR parquetR excelR now e h).trans
        (fileExtract_csv csvR jsonR' parquetR' excelR' now e h).symm⟩,
   fun csvR jsonR parquetR excelR csvR' parquetR' excelR' now e h =>
     ⟨fileExtract_json csvR jsonR parquetR excelR now e h,
      (fileExtract_json csvR jsonR parquetR excelR now e h).trans
        (fileExtract_json csvR' jsonR parquetR' excelR' now e h).symm⟩,
   fun csvR jsonR parquetR excelR csvR' jsonR' excelR' now e h =>
     ⟨fileExtract_parquet csvR jsonR parquetR excelR now e h,
      (fileExtract_parquet csvR jsonR parquetR excelR now e h).trans
        (fileExtract_parquet csvR' jsonR' parquetR excelR' now e h).symm⟩,
   fun csvR jsonR parquetR excelR csvR' jsonR' parquetR' now e h =>
     ⟨fileExtract_excel csvR jsonR parquetR excelR now e h,
      (fileExtract_excel csvR jsonR parquetR excelR now e h).trans
        (fileExtract_excel csvR' jsonR' parquetR' excelR now e h).symm⟩⟩

/-- Witness for C6: a concrete `.bogus` path fails with the
unsupported-format error, and a concrete `.csv` path returns exactly what
the csv decoder produced. -/
theorem fileExtract_dispatch_witness :
    FileExtractor.extract emptyReader emptyReader emptyReader emptyReader
        ⟨"2024-01-01T00:00:00"⟩ (mkFileExtractor "f" "data.bogus" Option.none [])
      = Except.error (FileError.unsupportedFormat "bogus")
    ∧ FileExtractor.extract nullRowReader emptyReader emptyReader emptyReader
        ⟨"2024-01-01T00:00:00"⟩ (mkFileExtractor "f" "a.csv" Option.none [])
      = Except.ok (ExtractionResult.make [Json.null] ("file:" ++ "a.csv")
          ⟨"2024-01-01T00:00:00"⟩
          [("format", MetaVal.s "csv"), ("path", MetaVal.s "a.csv")] 0) :=
  ⟨fileExtract_dispatch.1 emptyReader emptyReader emptyReader emptyReader
     ⟨"2024-01-01T00:00:00"⟩
     (mkFileExtractor "f" "data.bogus" Option.none []) (by decide),
   (fileExtract_dispatch.2.1 nullRowReader emptyReader emptyReader emptyReader
     emptyReader emptyReader emptyReader ⟨"2024-01-01T00:00:00"⟩
     (mkFileExtractor "f" "a.csv" Option.none []) (by decide)).1⟩

/-- Claim C10, counterexample: the dot-free path `"xlsx"` does not resolve
to the whole path lowercased — `rsplit` indeed returns the whole path, but
the subsequent Excel check maps it to `"excel"`, so `extract()` succeeds
even though `"xlsx"` itself does not spell a supported format name. -/
theorem detect_format_dotless_counterexample :
    ('.' ∉ String.toList "xlsx")
    ∧ FileExtractor.detect_format "xlsx" = "excel"
    ∧ String.mk (pyLower (String.toList "xlsx")) = "xlsx"
    ∧ ("excel" : String) ≠ "xlsx"
    ∧ "xlsx" ∉ FileExtractor.SUPPORTED_FORMATS
    ∧ (FileExtractor.extract emptyReader emptyReader emptyReader emptyReader
        ⟨"2024-01-01T00:00:00"⟩
        (mkFileExtractor "f" "xlsx" Option.none [])).isOk = true := by
  refine ⟨by decide, by decide, by decide, by decide, by decide, rfl⟩

/-- Claim C10, amended: for a `FileExtractor` constructed without an
explicit format on a path containing no dot, `rsplit` returns the whole
path, so the resolved format is the whole path lowercased — unless that
lowercased path is `"xlsx"` or `"xls"`, in which case it is `"excel"` —
and `extract()` raises the unsupported-format error whenever the resolved
format is outside the four supported names. -/
theorem detect_format_dotless :
    ∀ (p : String), '.' ∉ p.toList →
      (FileExtractor.detect_format p
        = (if pyLower p.toList = String.toList "xlsx"
              ∨ pyLower p.toList = String.toList "xls"
           then "excel" else String.mk (pyLower p.toList)))
      ∧ (∀ (name : String) (opts : ReadOptions)
          (csvR jsonR parquetR excelR : FileReader) (now : Timestamp),
          (mkFileExtractor name p Option.none opts).file_format
              ∉ FileExtractor.SUPPORTED_FORMATS →
          FileExtractor.extract csvR jsonR parquetR excelR now
              (mkFileExtractor name p Option.none opts)
            = Except.error (FileError.unsupportedFormat
                (mkFileExtractor name p Option.none opts).file_format)) := by
  intro p hp
  constructor
  · unfold FileExtractor.detect_format
    rw [pyRsplitLast_of_no_dot hp]
    simp only [List.mem_cons, List.not_mem_nil, or_false]
  · intro name opts csvR jsonR parquetR excelR now h
    exact fileExtract_unsupported csvR jsonR parquetR excelR now
      (mkFileExtractor name p Option.none opts) h

/-- Witness for C10 at the concrete dot-free path `"notafile"`: the resolved
format is the path itself and extraction fails with the unsupported-format
error. -/
theorem detect_format_dotless_witness :
    FileExtractor.detect_format "notafile" = "notafile"
    ∧ FileExtractor.extract emptyReader emptyReader emptyReader emptyReader
        ⟨"2024-01-01T00:00:00"⟩
        (mkFileExtractor "f" "notafile" Option.none [])
      = Except.error (FileError.unsupportedFormat "notafile") :=
  ⟨((detect_format_dotless "notafile" (by decide)).1).trans (by decide),
   (detect_format_dotless "notafile" (by decide)).2 "f" []
     emptyReader emptyReader emptyReader emptyReader
     ⟨"2024-01-01T00:00:00"⟩ (by decide)⟩

end Extractors
